import Mathlib

/-
Verification development for the video-processing backend.

The Python sources are shallowly embedded: Python strings become `List Char`
(or Lean `String` where only concatenation and equality are used), Python
floats used purely for comparisons become `ℚ`, Python ints become `Int` or
`Nat`, exceptions become `Except`-values, and the filesystem is an explicit
map from paths to optional byte sizes.  The database session is an explicit
list of rows threaded through the functions; the head of the list is the
most recently inserted row (timestamps are strictly increasing across
commits, so ordering by creation time descending returns the head first).
-/

deriving instance DecidableEq for Except

namespace VideoProc

/-! ## Characters significant to the ffmpeg drawtext filter -/

/-- The backslash character. -/
def bsC : Char := Char.ofNat 92

/-- The colon character. -/
def colonC : Char := Char.ofNat 58

/-- The single-quote character. -/
def quoteC : Char := Char.ofNat 39

/-- The newline character. -/
def nlC : Char := Char.ofNat 10

/-- The letter n, used in the textual escape of a newline. -/
def letterN : Char := Char.ofNat 110

/-- Python `str.replace` for a single-character pattern: every occurrence of
`pat` in the input is replaced by `rep`, scanning left to right. -/
def replaceAll (pat : Char) (rep : List Char) : List Char → List Char
  | [] => []
  | c :: cs => (if c = pat then rep else [c]) ++ replaceAll pat rep cs

/-- Embeds `FFmpegService._sanitize_drawtext_text`
(`src/app/services/ffmpeg_service.py`, lines 14-19): four chained
`str.replace` calls, backslash first, then colon, single-quote and newline. -/
def sanitize_drawtext_text (s : List Char) : List Char :=
  replaceAll nlC [bsC, letterN]
    (replaceAll quoteC [bsC, quoteC]
      (replaceAll colonC [bsC, colonC]
        (replaceAll bsC [bsC, bsC] s)))

/-- Per-character escape map: the composition of the four chained replaces
acts independently on each input character. -/
def escChar (c : Char) : List Char :=
  if c = bsC then [bsC, bsC]
  else if c = colonC then [bsC, colonC]
  else if c = quoteC then [bsC, quoteC]
  else if c = nlC then [bsC, letterN]
  else [c]

/-- Character-wise escaping of a whole string. -/
def escAll : List Char → List Char
  | [] => []
  | c :: cs => escChar c ++ escAll cs

/-- True exactly on the four characters the sanitizer rewrites. -/
def isSpecialChar (c : Char) : Bool :=
  c == bsC || c == colonC || c == quoteC || c == nlC

/-- True on the three characters that must appear escaped in sanitizer
output: colon, single-quote and newline. -/
def isTarget (c : Char) : Bool :=
  c == colonC || c == quoteC || c == nlC

/-- Scan of a character list checking that every colon, single-quote or
newline is immediately preceded by a backslash; `prev` is the character
before the current position, if any. -/
def okFrom : Option Char → List Char → Bool
  | _, [] => true
  | prev, c :: cs => (if isTarget c then prev == some bsC else true) && okFrom (some c) cs

/-- Every drawtext-significant character in the list is immediately preceded
by a backslash. -/
def wellEscaped (l : List Char) : Bool := okFrom none l

theorem replaceAll_append (pat : Char) (rep : List Char) (a b : List Char) :
    replaceAll pat rep (a ++ b) = replaceAll pat rep a ++ replaceAll pat rep b := by
  induction a with
  | nil => rfl
  | cons c cs ih => simp [replaceAll, ih]

theorem sanitize_cons (c : Char) (s : List Char) :
    sanitize_drawtext_text (c :: s) = escChar c ++ sanitize_drawtext_text s := by
  have h1 : replaceAll bsC [bsC, bsC] (c :: s)
      = (if c = bsC then [bsC, bsC] else [c]) ++ replaceAll bsC [bsC, bsC] s := by
    simp [replaceAll]
  simp only [sanitize_drawtext_text, h1, replaceAll_append]
  by_cases hb : c = bsC
  · subst hb; simp [replaceAll, escChar, bsC, colonC, quoteC, nlC]
  · by_cases hc : c = colonC
    · subst hc; simp [replaceAll, escChar, bsC, colonC, quoteC, nlC]
    · by_cases hq : c = quoteC
      · subst hq; simp [replaceAll, escChar, bsC, colonC, quoteC, nlC]
      · by_cases hn : c = nlC
        · subst hn; simp [replaceAll, escChar, bsC, colonC, quoteC, nlC]
        · simp [replaceAll, escChar, hb, hc, hq, hn]

theorem sanitize_eq_escAll (s : List Char) :
    sanitize_drawtext_text s = escAll s := by
  induction s with
  | nil => rfl
  | cons c cs ih => rw [sanitize_cons, escAll, ih]

theorem okFrom_escAll (s : List Char) : ∀ prev, okFrom prev (escAll s) = true := by
  induction s with
  | nil => intro prev; rfl
  | cons c cs ih =>
    intro prev
    by_cases hb : c = bsC
    · subst hb
      simp only [escAll, escChar, if_pos rfl, List.cons_append, List.nil_append]
      simp [okFrom, isTarget, bsC, colonC, quoteC, nlC, ih]
    · by_cases hc : c = colonC
      · subst hc
        simp only [escAll, escChar, colonC, bsC, quoteC, nlC] at *
        simp [escChar, okFrom, isTarget, ih]
        exact ⟨Or.inl (by decide), Or.inr (by decide)⟩
      · by_cases hq : c = quoteC
        · subst hq
          simp only [escAll, escChar, quoteC, bsC, colonC, nlC] at *
          simp [escChar, okFrom, isTarget, ih]
          exact ⟨Or.inl (by decide), Or.inr (by decide)⟩
        · by_cases hn : c = nlC
          · subst hn
            simp only [escAll, escChar, nlC, bsC, colonC, quoteC] at *
            simp [escChar, okFrom, isTarget, letterN, ih]
            exact ⟨Or.inl (by decide), Or.inr (by decide)⟩
          · have ht : isTarget c = false := by
              simp [isTarget, hc, hq, hn]
            simp [escAll, escChar, hb, hc, hq, hn, okFrom, ht, ih]

theorem escChar_length (c : Char) :
    (escChar c).length = if isSpecialChar c then 2 else 1 := by
  by_cases hb : c = bsC
  · subst hb; simp [escChar, isSpecialChar]
  · by_cases hc : c = colonC
    · subst hc; simp [escChar, isSpecialChar, colonC, bsC]
    · by_cases hq : c = quoteC
      · subst hq; simp [escChar, isSpecialChar, quoteC, bsC, colonC]
      · by_cases hn : c = nlC
        · subst hn; simp [escChar, isSpecialChar, nlC, bsC, colonC, quoteC]
        · simp [escChar, isSpecialChar, hb, hc, hq, hn]

theorem escAll_length (s : List Char) :
    (escAll s).length = s.length + s.countP isSpecialChar := by
  induction s with
  | nil => rfl
  | cons c cs ih =>
    simp only [escAll, List.length_append, ih, List.countP_cons, List.length_cons,
      escChar_length]
    by_cases h : isSpecialChar c = true
    · simp [h]; omega
    · simp only [Bool.not_eq_true] at h; simp [h]; omega

theorem escChar_countP (c : Char) :
    (if isSpecialChar c then 1 else 0) ≤ (escChar c).countP isSpecialChar := by
  by_cases hb : c = bsC
  · subst hb; simp [escChar, isSpecialChar, List.countP_cons]
  · by_cases hc : c = colonC
    · subst hc; simp [escChar, isSpecialChar, colonC, bsC, List.countP_cons]
    · by_cases hq : c = quoteC
      · subst hq; simp [escChar, isSpecialChar, quoteC, bsC, colonC, List.countP_cons]
      · by_cases hn : c = nlC
        · subst hn; simp [escChar, isSpecialChar, nlC, bsC, colonC, quoteC,
            letterN, List.countP_cons]
        · simp [escChar, isSpecialChar, hb, hc, hq, hn, List.countP_cons]

theorem countP_le_escAll (s : List Char) :
    s.countP isSpecialChar ≤ (escAll s).countP isSpecialChar := by
  induction s with
  | nil => simp [escAll]
  | cons c cs ih =>
    simp only [escAll, List.countP_append, List.countP_cons]
    have h := escChar_countP c
    by_cases hc : isSpecialChar c = true
    · simp only [hc, if_pos] at h ⊢; omega
    · simp only [Bool.not_eq_true] at hc
      simp only [hc] at h ⊢; omega

theorem escAll_id_of_no_special (s : List Char)
    (h : ∀ c ∈ s, ¬ isSpecialChar c = true) : escAll s = s := by
  induction s with
  | nil => rfl
  | cons c cs ih =>
    have hc : ¬ isSpecialChar c = true := h c (List.mem_cons_self c cs)
    have hb : ¬ c = bsC := by
      intro hh; subst hh; simp [isSpecialChar] at hc
    have hcol : ¬ c = colonC := by
      intro hh; subst hh; simp [isSpecialChar] at hc
    have hq : ¬ c = quoteC := by
      intro hh; subst hh; simp [isSpecialChar] at hc
    have hn : ¬ c = nlC := by
      intro hh; subst hh; simp [isSpecialChar] at hc
    rw [escAll, escChar, if_neg hb, if_neg hcol, if_neg hq, if_neg hn]
    simp [ih fun d hd => h d (List.mem_cons_of_mem c hd)]

/-- C3: the claim as frozen states `sanitize(sanitize s) = sanitize s` for
every string.  This fails at the one-character string containing a colon:
escaping it once yields backslash-colon, and escaping again double-escapes
the backslash just introduced. -/
theorem C3_counterexample :
    sanitize_drawtext_text (sanitize_drawtext_text [colonC]) ≠
      sanitize_drawtext_text [colonC] := by
  decide

/-- C3 (amended): the sanitizer is idempotent exactly on the strings that
contain none of the four drawtext-significant characters; on any string
containing a backslash, colon, single-quote or newline, a second application
double-escapes (the source escapes backslash first, so the backslashes it
inserts are themselves re-escaped by a second pass). -/
theorem C3_sanitize_idempotent_iff_no_special (s : List Char) :
    sanitize_drawtext_text (sanitize_drawtext_text s) = sanitize_drawtext_text s ↔
      s.countP isSpecialChar = 0 := by
  constructor
  · intro h
    have hlen := congrArg List.length h
    rw [sanitize_eq_escAll, sanitize_eq_escAll s, escAll_length] at hlen
    have hz : (escAll s).countP isSpecialChar = 0 := by omega
    have hle := countP_le_escAll s
    omega
  · intro h
    have hall : ∀ c ∈ s, ¬ isSpecialChar c = true := List.countP_eq_zero.mp h
    have h1 : sanitize_drawtext_text s = s := by
      rw [sanitize_eq_escAll]; exact escAll_id_of_no_special s hall
    rw [h1]; exact h1

/-- C4: the sanitizer rewrites exactly the four drawtext-significant
characters (backslash doubled, colon, single-quote and newline each prefixed
by a backslash, the newline becoming a backslash followed by the letter n),
leaving every other character unchanged, and in its output every colon,
single-quote and newline is immediately preceded by a backslash. -/
theorem C4_sanitize_escapes_exactly_four (s : List Char) :
    sanitize_drawtext_text s = escAll s ∧
      wellEscaped (sanitize_drawtext_text s) = true := by
  refine ⟨sanitize_eq_escAll s, ?_⟩
  rw [wellEscaped, sanitize_eq_escAll]
  exact okFrom_escAll s none

/-! ## Process Runner (`src/app/utils/ffmpeg_runner.py`) -/

/-- Observable behaviour of the child process spawned for one invocation:
captured standard output, captured standard error, its exit code, and the
wall-clock duration of the run. -/
structure ChildResult where
  stdout : String
  stderr : String
  returncode : Int
  duration_s : ℚ
deriving DecidableEq

/-- Embeds Python `subprocess.CalledProcessError` as raised by `run_ffmpeg`:
the exit code, the captured stdout (passed as `output=`) and the captured
stderr (passed as `stderr=`). -/
structure CalledProcessError where
  returncode : Int
  output : String
  stderr : String
deriving DecidableEq

/-- The structured dict returned by `run_ffmpeg` on the non-raising path. -/
structure RunResult where
  stdout : String
  stderr : String
  returncode : Int
  duration_s : ℚ
deriving DecidableEq

/-- Embeds `run_ffmpeg` (`src/app/utils/ffmpeg_runner.py`, lines 6-28): the
child is run with `check=False`, then if the raise flag is set and the exit
code is non-zero a `CalledProcessError` carrying exit code, stdout and
stderr is raised; otherwise the captured results are returned. -/
def run_ffmpeg (child : ChildResult) (check : Bool) :
    Except CalledProcessError RunResult :=
  if check = true ∧ child.returncode ≠ 0 then
    .error ⟨child.returncode, child.stdout, child.stderr⟩
  else
    .ok ⟨child.stdout, child.stderr, child.returncode, child.duration_s⟩

/-! ## Transform Service (`src/app/services/ffmpeg_service.py`)

The filesystem is a map from paths to `some size` (existing file of that
byte size) or `none` (no file); it represents the state consulted by
`os.path.exists` / `os.path.getsize` after the external invocation.  The
command strings built by each operation are parameters of the external tool
only, so they do not appear in the embedding; the tool's behaviour is the
`ChildResult` argument. -/

/-- Filesystem state: byte size by path, `none` when the path is absent. -/
def FS : Type := String → Option Nat

/-- A Python exception as raised by the service layer. -/
inductive PyErr
  | valueError (msg : String)
  | typeError (msg : String)
  | processError (e : CalledProcessError)
deriving DecidableEq

/-- Embeds `FFmpegService._validate_time_range` (lines 21-29). -/
def validate_time_range (start_time : ℚ) (end_time : Option ℚ) :
    Except PyErr Unit :=
  if start_time < 0 then .error (.valueError "start_time must be >= 0")
  else
    match end_time with
    | none => .ok ()
    | some e =>
      if e ≤ 0 then .error (.valueError "end_time must be > 0 when provided")
      else if e ≤ start_time then
        .error (.valueError "end_time must be greater than start_time")
      else .ok ()

/-- Embeds `FFmpegService._validate_position` (lines 31-34). -/
def validate_position (position_x position_y : Int) : Except PyErr Unit :=
  if position_x < 0 ∨ position_y < 0 then
    .error (.valueError "position_x and position_y must be >= 0")
  else .ok ()

/-- Embeds `FFmpegService.trim_video` (lines 69-94).  The second component
counts how many times the Process Runner was invoked.  Exceptions raised
inside are logged and re-raised by the source, so they propagate as
`.error`. -/
def trim_video (fs : FS) (child : ChildResult)
    (input_path output_path : String) (start_time end_time : ℚ) :
    Except PyErr Bool × Nat :=
  match validate_time_range start_time (some end_time) with
  | .error e => (.error e, 0)
  | .ok _ =>
    match run_ffmpeg child true with
    | .error e => (.error (.processError e), 1)
    | .ok _ => (.ok (fs output_path).isSome, 1)

/-- Embeds `FFmpegService.add_text_overlay` (lines 96-147).  The task layer
may pass `font_size=None`; the source then evaluates `None <= 0`, which
raises `TypeError` in Python 3. -/
def add_text_overlay (fs : FS) (child : ChildResult)
    (input_path output_path : String) (text : String)
    (position_x position_y : Int) (start_time : ℚ) (end_time : Option ℚ)
    (font_size : Option Int) (font_color language : String) :
    Except PyErr Bool × Nat :=
  match validate_position position_x position_y with
  | .error e => (.error e, 0)
  | .ok _ =>
    match validate_time_range start_time end_time with
    | .error e => (.error e, 0)
    | .ok _ =>
      match font_size with
      | none =>
        (.error (.typeError "unsupported operand comparison of NoneType and int"), 0)
      | some n =>
        if n ≤ 0 then (.error (.valueError "font_size must be > 0"), 0)
        else
          match run_ffmpeg child true with
          | .error e => (.error (.processError e), 1)
          | .ok _ => (.ok (fs output_path).isSome, 1)

/-- Embeds `FFmpegService.add_image_overlay` (lines 149-185). -/
def add_image_overlay (fs : FS) (child : ChildResult)
    (input_path output_path overlay_path : String)
    (position_x position_y : Int) (start_time : ℚ) (end_time : Option ℚ) :
    Except PyErr Bool × Nat :=
  match validate_position position_x position_y with
  | .error e => (.error e, 0)
  | .ok _ =>
    match validate_time_range start_time end_time with
    | .error e => (.error e, 0)
    | .ok _ =>
      match run_ffmpeg child true with
      | .error e => (.error (.processError e), 1)
      | .ok _ => (.ok (fs output_path).isSome, 1)

/-- Embeds `FFmpegService.add_watermark` (lines 187-228).  The anchor-name
lookup only shapes the command string, so it does not appear here. -/
def add_watermark (fs : FS) (child : ChildResult)
    (input_path output_path watermark_path position : String) (opacity : ℚ) :
    Except PyErr Bool × Nat :=
  if ¬ (0 ≤ opacity ∧ opacity ≤ 1) then
    (.error (.valueError "opacity must be between 0.0 and 1.0"), 0)
  else
    match run_ffmpeg child true with
    | .error e => (.error (.processError e), 1)
    | .ok _ => (.ok (fs output_path).isSome, 1)

/-- The fixed quality table of `FFmpegService.convert_quality`
(lines 233-237): width, height and target bitrate per label. -/
def quality_settings (quality : String) : Option (Nat × Nat × String) :=
  if quality = "1080p" then some (1920, 1080, "5M")
  else if quality = "720p" then some (1280, 720, "2.5M")
  else if quality = "480p" then some (854, 480, "1M")
  else none

/-- Embeds `FFmpegService.convert_quality` (lines 230-264).  The source
invokes `subprocess.run(..., check=True)` directly, which raises
`CalledProcessError` on a non-zero exit, exactly like the runner with the
raise flag set. -/
def convert_quality (fs : FS) (child : ChildResult)
    (input_path output_path quality : String) : Except PyErr Bool × Nat :=
  match quality_settings quality with
  | none => (.error (.valueError ("Unsupported quality: " ++ quality)), 0)
  | some _ =>
    if child.returncode ≠ 0 then
      (.error (.processError ⟨child.returncode, child.stdout, child.stderr⟩), 1)
    else (.ok (fs output_path).isSome, 1)

/-! ## Concrete fixtures used by counterexamples and witnesses -/

/-- A child process run that succeeds silently. -/
def childOK : ChildResult := ⟨"", "", 0, 1⟩

/-- A child process run that fails with exit code 2. -/
def childFail : ChildResult := ⟨"out text", "err text", 2, 1⟩

/-- Filesystem where the input exists and the declared output exists but is
empty (zero bytes). -/
def fsEmptyOut : FS := fun p =>
  if p = "out.mp4" then some 0 else if p = "in.mp4" then some 100 else none

/-- Filesystem where the input exists and the declared output exists with 10
bytes. -/
def fsGoodOut : FS := fun p =>
  if p = "out.mp4" then some 10 else if p = "in.mp4" then some 100 else none

/-- C7: with the raise flag set, a non-zero exit from the child raises a
`CalledProcessError` carrying the exit code and the captured stdout and
stderr; and whenever the exit code is 0, the runner returns the captured
stdout, stderr, exit code and duration, whatever the raise flag is. -/
theorem C7_runner_raise_and_success (child : ChildResult) :
    (child.returncode ≠ 0 →
      run_ffmpeg child true = .error ⟨child.returncode, child.stdout, child.stderr⟩) ∧
    (child.returncode = 0 → ∀ check : Bool,
      run_ffmpeg child check =
        .ok ⟨child.stdout, child.stderr, child.returncode, child.duration_s⟩) := by
  constructor
  · intro h; simp [run_ffmpeg, h]
  · intro h check; simp [run_ffmpeg, h]

/-- Witness for C7 at concrete runs: exit code 2 with the raise flag raises
with code, stdout and stderr; exit code 0 returns the captured results. -/
theorem C7_runner_raise_and_success_witness :
    run_ffmpeg childFail true = .error ⟨2, "out text", "err text"⟩ ∧
      run_ffmpeg childOK true = .ok ⟨"", "", 0, 1⟩ := by
  exact ⟨(C7_runner_raise_and_success childFail).1 (by decide),
    (C7_runner_raise_and_success childOK).2 rfl true⟩

/-- C10 (implicit): with the raise flag unset the runner never raises on a
non-zero exit code: it returns normally, and the returned record carries the
child's actual exit code together with the captured stdout and stderr. -/
theorem C10_runner_no_raise_without_flag (child : ChildResult) :
    run_ffmpeg child false =
      .ok ⟨child.stdout, child.stderr, child.returncode, child.duration_s⟩ := by
  simp [run_ffmpeg]

/-- C6: a trim request with `end_time ≤ start_time` or `start_time < 0` is
rejected by validation before any external invocation: the result is a
`ValueError` and the Process Runner invocation count is zero. -/
theorem C6_trim_validates_before_invocation (fs : FS) (child : ChildResult)
    (input_path output_path : String) (start_time end_time : ℚ)
    (h : end_time ≤ start_time ∨ start_time < 0) :
    ∃ msg, trim_video fs child input_path output_path start_time end_time =
      (.error (.valueError msg), 0) := by
  by_cases hs : start_time < 0
  · exact ⟨"start_time must be >= 0", by simp [trim_video, validate_time_range, hs]⟩
  · have hle : end_time ≤ start_time := by
      rcases h with h | h
      · exact h
      · exact absurd h hs
    by_cases he : end_time ≤ 0
    · exact ⟨"end_time must be > 0 when provided",
        by simp [trim_video, validate_time_range, hs, he]⟩
    · exact ⟨"end_time must be greater than start_time",
        by simp [trim_video, validate_time_range, hs, he, hle]⟩

/-- Witness for C6: trimming with start 5 and end 3 yields a validation
error and zero runner invocations. -/
theorem C6_trim_validates_before_invocation_witness :
    ∃ msg, trim_video fsGoodOut childOK "in.mp4" "out.mp4" 5 3 =
      (.error (.valueError msg), 0) :=
  C6_trim_validates_before_invocation fsGoodOut childOK "in.mp4" "out.mp4" 5 3
    (Or.inl (by norm_num))

/-- Helper: when the trim reports success, the declared output path exists
on the filesystem. -/
theorem trim_video_ok_true_exists (fs : FS) (child : ChildResult)
    (i o : String) (st et : ℚ)
    (h : (trim_video fs child i o st et).1 = .ok true) :
    (fs o).isSome = true := by
  unfold trim_video at h
  repeat' split at h
  all_goals simp_all

/-- C8: for each of the five transform operations, whenever the operation
returns a boolean (rather than raising), that boolean is exactly the
existence of the declared output path on the filesystem after the external
tool ran: exit code 0 with a missing output reports failure, and success is
reported only when the output exists. -/
theorem C8_success_iff_output_exists :
    (∀ (fs : FS) (child : ChildResult) (i o : String) (st et : ℚ) (b : Bool),
      (trim_video fs child i o st et).1 = .ok b → b = (fs o).isSome) ∧
    (∀ (fs : FS) (child : ChildResult) (i o t : String) (px py : Int) (st : ℚ)
        (et : Option ℚ) (fsz : Option Int) (fc lang : String) (b : Bool),
      (add_text_overlay fs child i o t px py st et fsz fc lang).1 = .ok b →
        b = (fs o).isSome) ∧
    (∀ (fs : FS) (child : ChildResult) (i o ov : String) (px py : Int) (st : ℚ)
        (et : Option ℚ) (b : Bool),
      (add_image_overlay fs child i o ov px py st et).1 = .ok b →
        b = (fs o).isSome) ∧
    (∀ (fs : FS) (child : ChildResult) (i o w pos : String) (op : ℚ) (b : Bool),
      (add_watermark fs child i o w pos op).1 = .ok b → b = (fs o).isSome) ∧
    (∀ (fs : FS) (child : ChildResult) (i o q : String) (b : Bool),
      (convert_quality fs child i o q).1 = .ok b → b = (fs o).isSome) := by
  refine ⟨?_, ?_, ?_, ?_, ?_⟩
  · intro fs child i o st et b h
    unfold trim_video at h
    repeat' split at h
    all_goals simp_all
  · intro fs child i o t px py st et fsz fc lang b h
    unfold add_text_overlay at h
    repeat' split at h
    all_goals simp_all
  · intro fs child i o ov px py st et b h
    unfold add_image_overlay at h
    repeat' split at h
    all_goals simp_all
  · intro fs child i o w pos op b h
    unfold add_watermark at h
    repeat' split at h
    all_goals simp_all
  · intro fs child i o q b h
    unfold convert_quality at h
    repeat' split at h
    all_goals simp_all

/-- Witness for C8: a successful trim over the filesystem with an existing
output reports true, and the output path indeed exists there. -/
theorem C8_success_iff_output_exists_witness :
    true = (fsGoodOut "out.mp4").isSome :=
  C8_success_iff_output_exists.1 fsGoodOut childOK "in.mp4" "out.mp4" 0 5 true
    (by decide)

/-! ## Media Record Store (`src/app/models/video.py`, `src/app/services/video_service.py`) -/

/-- A JSON-like value stored in a config payload. -/
inductive JVal
  | num (q : ℚ)
  | str (s : String)
  | null
deriving DecidableEq

/-- A JSON-like object: the config payloads persisted with records. -/
abbrev JObj : Type := List (String × JVal)

/-- A `videos` row (`src/app/models/video.py`, lines 8-25).  Only the fields
the processing core reads are carried; byte size, dimensions, format, MIME
type and timestamps are opaque to the claims. -/
structure Video where
  id : String
  filename : String
  file_path : String
  duration : Option ℚ
deriving DecidableEq

/-- A `processed_videos` row (`src/app/models/video.py`, lines 28-45), as
populated by `VideoService.record_processed_video`. -/
structure ProcessedVideo where
  id : String
  original_video_id : String
  filename : String
  file_path : String
  file_size : Nat
  processing_type : String
  processing_config : JObj
  quality : Option String
deriving DecidableEq

/-- A `jobs` row (`src/app/models/video.py`, lines 48-62). -/
structure Job where
  id : String
  video_id : String
  job_type : String
  status : String
  progress : Int
  result_file_path : Option String
  error_message : Option String
  config : Option JObj
deriving DecidableEq

/-- The forward slash character. -/
def slashC : Char := Char.ofNat 47

/-- Characters after the last slash, scanning left to right. -/
def afterLastSlash (l : List Char) : List Char :=
  l.foldl (fun acc c => if c = slashC then [] else acc ++ [c]) []

/-- Python `os.path.basename` for forward-slash paths: the part after the
last slash. -/
def basename (p : String) : String := ⟨afterLastSlash p.data⟩

/-- Embeds `VideoService.get_video_by_id` (`video_service.py`, lines 76-77):
first row whose id matches. -/
def get_video_by_id (videos : List Video) (video_id : String) : Option Video :=
  videos.find? (fun v => v.id == video_id)

/-- Embeds `VideoService.create_job` (`video_service.py`, lines 86-92).  The
source constructs the row with `status="completed"` and `progress=100`
explicitly; `new_id` is the identifier the store assigns.  Returns the new
row and the store with it committed. -/
def create_job (new_id : String) (db : List Job) (video_id job_type : String)
    (config : Option JObj) : Job × List Job :=
  let job : Job :=
    ⟨new_id, video_id, job_type, "completed", 100, none, none, config⟩
  (job, job :: db)

/-- First job whose id matches, as in `db.query(Job).filter(...).first()`. -/
def find_job (db : List Job) (job_id : String) : Option Job :=
  db.find? (fun j => j.id == job_id)

/-- Embeds `VideoService.update_job_status` (`video_service.py`, lines
94-114): if a job with the id exists, its status is overwritten with the
given value unconditionally; progress is overwritten when not `None`; the
result path and error message are overwritten when truthy (Python `if x:`,
so `None` and the empty string are skipped).  Returns the refreshed row (or
`none`) and the updated store. -/
def update_job_status (db : List Job) (job_id status : String)
    (progress : Option Int) (result_file_path error_message : Option String) :
    Option Job × List Job :=
  match find_job db job_id with
  | none => (none, db)
  | some job =>
    let j2 : Job :=
      { job with
        status := status
        progress := match progress with | some p => p | none => job.progress
        result_file_path :=
          match result_file_path with
          | some s => if s = "" then job.result_file_path else some s
          | none => job.result_file_path
        error_message :=
          match error_message with
          | some s => if s = "" then job.error_message else some s
          | none => job.error_message }
    (some j2, db.map (fun j => if j.id == job_id then j2 else j))

/-- Embeds `VideoService.record_processed_video` (`video_service.py`, lines
121-145).  The row is constructed and committed unconditionally; its byte
size is `os.path.getsize(output_path)` when the path exists and 0 when it
does not (`if os.path.exists(output_path) else 0` in the source). -/
def record_processed_video (fs : FS) (new_id : String)
    (db : List ProcessedVideo) (video : Video)
    (output_path processing_type : String) (processing_config : JObj)
    (quality : Option String) : ProcessedVideo × List ProcessedVideo :=
  let pv : ProcessedVideo :=
    { id := new_id
      original_video_id := video.id
      filename := basename output_path
      file_path := output_path
      file_size := (fs output_path).getD 0
      processing_type := processing_type
      processing_config := processing_config
      quality := quality }
  (pv, pv :: db)

/-- Embeds `VideoService.get_latest_processed_for_video` (`video_service.py`,
lines 148-154): the most recently created row for the video; the store list
is kept newest-first. -/
def get_latest_processed_for_video (db : List ProcessedVideo)
    (video_id : String) : Option ProcessedVideo :=
  (db.filter (fun p => p.original_video_id == video_id)).head?

/-- Embeds `VideoService.trim_and_record` (`video_service.py`, lines
156-168): run the trim, and only when it reports success commit a
`ProcessedVideo` row; exceptions from the trim propagate. -/
def trim_and_record (fs : FS) (child : ChildResult) (new_id : String)
    (db : List ProcessedVideo) (video : Video) (output_path : String)
    (start_time end_time : ℚ) : Except PyErr (Bool × List ProcessedVideo) :=
  match (trim_video fs child video.file_path output_path start_time end_time).1 with
  | .error e => .error e
  | .ok false => .ok (false, db)
  | .ok true =>
    let r := record_processed_video fs new_id db video output_path "trim"
      [("start_time", .num start_time), ("end_time", .num end_time)] none
    .ok (true, r.2)

/-- The overlay-type dispatch of `VideoService.overlay_and_record`
(`video_service.py`, lines 185-209): "text" and "image" call the matching
service operation; anything else raises `ValueError`. -/
def overlay_step (fs : FS) (child : ChildResult) (video : Video)
    (output_path overlay_type content : String) (position_x position_y : Int)
    (start_time : ℚ) (end_time : Option ℚ) (font_size : Option Int)
    (font_color language : String) : Except PyErr Bool :=
  if overlay_type = "text" then
    (add_text_overlay fs child video.file_path output_path content
      position_x position_y start_time end_time font_size font_color language).1
  else if overlay_type = "image" then
    (add_image_overlay fs child video.file_path output_path content
      position_x position_y start_time end_time).1
  else .error (.valueError ("Unsupported overlay type: " ++ overlay_type))

/-- The config payload persisted by `VideoService.overlay_and_record`
(`video_service.py`, lines 219-229). -/
def overlay_config (overlay_type content : String) (position_x position_y : Int)
    (start_time : ℚ) (end_time : Option ℚ) (font_size : Option Int)
    (font_color language : String) : JObj :=
  [("overlay_type", .str overlay_type), ("content", .str content),
   ("position_x", .num position_x), ("position_y", .num position_y),
   ("start_time", .num start_time),
   ("end_time", match end_time with | some e => .num e | none => .null),
   ("font_size", match font_size with | some n => .num n | none => .null),
   ("font_color", .str font_color), ("language", .str language)]

/-- Embeds `VideoService.overlay_and_record` (`video_service.py`, lines
170-231): dispatch on the overlay type, then commit an "overlay" row only on
success. -/
def overlay_and_record (fs : FS) (child : ChildResult) (new_id : String)
    (db : List ProcessedVideo) (video : Video)
    (output_path overlay_type content : String) (position_x position_y : Int)
    (start_time : ℚ) (end_time : Option ℚ) (font_size : Option Int)
    (font_color language : String) : Except PyErr (Bool × List ProcessedVideo) :=
  match overlay_step fs child video output_path overlay_type content
      position_x position_y start_time end_time font_size font_color language with
  | .error e => .error e
  | .ok false => .ok (false, db)
  | .ok true =>
    let r := record_processed_video fs new_id db video output_path "overlay"
      (overlay_config overlay_type content position_x position_y start_time
        end_time font_size font_color language) none
    .ok (true, r.2)

/-- A source video row used by concrete scenarios. -/
def vidA : Video := ⟨"v1", "a.mp4", "in.mp4", none⟩

/-- The job row that `create_job` actually builds. -/
def jobC : Job := ⟨"j1", "v1", "trim", "completed", 100, none, none, none⟩

/-- C1 counterexample: `create_job` does not create its row in status
`pending` — the row it commits has status `completed` — and
`update_job_status` then moves that terminal row back to `processing`, so a
job observed in a terminal state does not stay there. -/
theorem C1_counterexample :
    (create_job "j1" [] "v1" "trim" none).1 = jobC ∧
      jobC.status ≠ "pending" ∧
      ((update_job_status [jobC] "j1" "processing" none none none).1.map
        Job.status) = some "processing" := by
  refine ⟨rfl, by decide, rfl⟩

/-- C1 (amended): every row built by `create_job` has status `completed` and
progress 100, and `update_job_status` overwrites the status of a found job
with the requested value unconditionally — including transitions out of a
terminal state. -/
theorem C1_job_status_behaviour :
    (∀ (new_id : String) (db : List Job) (video_id job_type : String)
        (config : Option JObj),
      (create_job new_id db video_id job_type config).1.status = "completed" ∧
        (create_job new_id db video_id job_type config).1.progress = 100) ∧
    (∀ (db : List Job) (job_id status : String) (progress : Option Int)
        (rfp em : Option String) (j : Job),
      (update_job_status db job_id status progress rfp em).1 = some j →
        j.status = status) := by
  constructor
  · intro new_id db video_id job_type config
    exact ⟨rfl, rfl⟩
  · intro db job_id status progress rfp em j h
    unfold update_job_status at h
    split at h
    · exact absurd h (by simp)
    · simp only [Option.some.injEq] at h
      subst h
      rfl

/-- Witness for C1 (amended): updating the concrete completed job to
`failed` sets its status to `failed`. -/
theorem C1_job_status_behaviour_witness :
    ((update_job_status [jobC] "j1" "failed" none none none).1.map
        Job.status) = some "failed" := by
  have h := C1_job_status_behaviour.2 [jobC] "j1" "failed" none none none
    { jobC with status := "failed" } rfl
  simp [update_job_status, find_job, jobC, h]

/-- The empty (zero-byte) output file recorded by the C2 counterexample. -/
def pvEmpty : ProcessedVideo :=
  { id := "p1"
    original_video_id := "v1"
    filename := "out.mp4"
    file_path := "out.mp4"
    file_size := 0
    processing_type := "trim"
    processing_config := [("start_time", .num 0), ("end_time", .num 5)]
    quality := none }

/-- C2 counterexample: when the external trim exits 0 and the declared
output path exists but is empty (zero bytes), `trim_and_record` still
commits a `ProcessedVideo` row — with `file_size = 0` — so a record is
created whose stored path refers to an existing but empty file, contrary to
the claimed non-emptiness requirement. -/
theorem C2_counterexample :
    trim_and_record fsEmptyOut childOK "p1" [] vidA "out.mp4" 0 5 =
        .ok (true, [pvEmpty]) ∧
      pvEmpty.file_size = 0 ∧ fsEmptyOut "out.mp4" = some 0 := by
  refine ⟨rfl, rfl, rfl⟩

/-- C2 (amended): `record_processed_video` commits a row whenever it is
called, even for an absent path (its byte size is then recorded as 0);
through `trim_and_record` a row is committed exactly when the trim reports
success, which guarantees the stored path exists on the filesystem — but not
that it is non-empty — and a failed or unsuccessful trim commits no row. -/
theorem C2_record_creation_behaviour :
    (∀ (fs : FS) (new_id : String) (db : List ProcessedVideo) (video : Video)
        (output_path processing_type : String) (cfg : JObj)
        (quality : Option String),
      (record_processed_video fs new_id db video output_path processing_type
          cfg quality).2 =
        (record_processed_video fs new_id db video output_path processing_type
          cfg quality).1 :: db ∧
      (record_processed_video fs new_id db video output_path processing_type
          cfg quality).1.file_size = (fs output_path).getD 0) ∧
    (∀ (fs : FS) (child : ChildResult) (new_id : String)
        (db db2 : List ProcessedVideo) (video : Video) (output_path : String)
        (st et : ℚ),
      (trim_and_record fs child new_id db video output_path st et =
          .ok (true, db2) →
        ∃ pv, db2 = pv :: db ∧ pv.file_path = output_path ∧
          (fs output_path).isSome = true) ∧
      (trim_and_record fs child new_id db video output_path st et =
          .ok (false, db2) → db2 = db)) := by
  constructor
  · intro fs new_id db video output_path processing_type cfg quality
    exact ⟨rfl, rfl⟩
  · intro fs child new_id db db2 video output_path st et
    constructor
    · intro h
      unfold trim_and_record at h
      split at h
      · exact absurd h (by simp)
      · simp at h
      · rename_i hok
        have hex : (fs output_path).isSome = true :=
          trim_video_ok_true_exists fs child video.file_path output_path st et hok
        simp only [Except.ok.injEq, Prod.mk.injEq, true_and] at h
        exact ⟨_, h.symm, rfl, hex⟩
    · intro h
      unfold trim_and_record at h
      split at h
      · exact absurd h (by simp)
      · simp only [Except.ok.injEq, Prod.mk.injEq, true_and] at h
        exact h.symm
      · simp at h

/-- The 10-byte output file recorded by the C2 witness scenario. -/
def pvGood : ProcessedVideo :=
  { id := "p1"
    original_video_id := "v1"
    filename := "out.mp4"
    file_path := "out.mp4"
    file_size := 10
    processing_type := "trim"
    processing_config := [("start_time", .num 0), ("end_time", .num 5)]
    quality := none }

/-- Witness for C2 (amended): over the filesystem with a 10-byte output, a
successful trim commits exactly one new row whose stored path exists. -/
theorem C2_record_creation_behaviour_witness :
    ∃ pv, trim_and_record fsGoodOut childOK "p1" [] vidA "out.mp4" 0 5 =
        .ok (true, [pv]) ∧ pv.file_path = "out.mp4" ∧
        (fsGoodOut "out.mp4").isSome = true := by
  obtain ⟨pv, hdb, hpath, hex⟩ :=
    (C2_record_creation_behaviour.2 fsGoodOut childOK "p1" [] [pvGood] vidA
      "out.mp4" 0 5).1 (by decide)
  have hpv : pvGood = pv := by
    simpa using hdb
  exact ⟨pv, by rw [← hpv]; decide, hpath, hex⟩

/-! ## Configuration and paths (`src/app/config.py`) -/

/-- The directory settings of `app.config.Settings` that the processing core
reads. -/
structure SettingsCfg where
  upload_dir : String
  processed_dir : String
  assets_dir : String
deriving DecidableEq

/-- The defaults declared in `src/app/config.py` (lines 10-12). -/
def defaultSettings : SettingsCfg := ⟨"uploads", "processed", "assets"⟩

/-- Python `os.path.join` for two components on a forward-slash system: an
absolute second component wins; otherwise the components are joined with a
slash unless the first already ends in one or is empty. -/
def osJoin (a b : String) : String :=
  if b.data.head? = some slashC then b
  else if a = "" then b
  else if a.data.getLast? = some slashC then a ++ b
  else a ++ "/" ++ b

/-! ## Job Orchestrator (`src/app/tasks/video.py`) -/

/-- The dict a task returns across the queue boundary. -/
structure TaskDict where
  status : String
  error : Option String
  processed_video_id : Option String
deriving DecidableEq

/-- The failure outcome dict. -/
def errDict (msg : String) : TaskDict := ⟨"error", some msg, none⟩

/-- Python `str(exc)` for the exceptions the service layer raises.  For
`CalledProcessError` the exact phrasing of the message is not load-bearing;
only that a message is produced. -/
def strExc : PyErr → String
  | .valueError m => m
  | .typeError m => m
  | .processError e =>
    "Command returned non-zero exit status " ++ toString e.returncode

/-- Embeds `trim_video_task` (`src/app/tasks/video.py`, lines 11-40).  The
ambient wall clock is the `iso` argument and the identifier the store
assigns is `new_id`.  The whole body runs inside `try/except Exception`, so
every raised exception becomes an error dict; note the output path is joined
under the literal directory name `"processed"` in the source (line 21), not
under the configured `processed_dir`. -/
def trim_video_task (videos : List Video) (fs : FS) (child : ChildResult)
    (iso new_id : String) (db : List ProcessedVideo) (video_id : String)
    (start_time end_time : ℚ) : TaskDict × List ProcessedVideo :=
  match get_video_by_id videos video_id with
  | none => (errDict ("Video " ++ video_id ++ " not found"), db)
  | some video =>
    match (trim_video fs child video.file_path
        (osJoin "processed" (iso ++ "_trimmed_" ++ basename video.filename))
        start_time end_time).1 with
    | .error e => (errDict (strExc e), db)
    | .ok false => (errDict "trim failed", db)
    | .ok true =>
      let r := record_processed_video fs new_id db video
        (osJoin "processed" (iso ++ "_trimmed_" ++ basename video.filename))
        "trim" [("start_time", .num start_time), ("end_time", .num end_time)]
        none
      (⟨"completed", none, some r.1.id⟩, r.2)

/-- Embeds `overlay_video_task` (`src/app/tasks/video.py`, lines 43-101).
For an image or video overlay the asset is resolved under the configured
assets directory and its absence is an early error; after a successful
overlay the source re-reads the newest processed row for the video and
returns its id (an absent row would raise `AttributeError`, caught by the
task's `except`).  As in the trim task, the output path is joined under the
literal `"processed"`. -/
def overlay_video_task (videos : List Video) (fs : FS) (child : ChildResult)
    (cfg : SettingsCfg) (iso new_id : String) (db : List ProcessedVideo)
    (video_id overlay_type content : String) (position_x position_y : Int)
    (start_time : ℚ) (end_time : Option ℚ) (font_size : Option Int)
    (font_color language : String) : TaskDict × List ProcessedVideo :=
  match get_video_by_id videos video_id with
  | none => (errDict ("Video " ++ video_id ++ " not found"), db)
  | some video =>
    if (overlay_type = "image" ∨ overlay_type = "video") ∧
        (fs (osJoin cfg.assets_dir content)).isSome = false then
      (errDict ("Overlay file not found: " ++ content), db)
    else
      match overlay_and_record fs child new_id db video
          (osJoin "processed" (iso ++ "_overlay_" ++ basename video.filename))
          overlay_type
          (if overlay_type = "image" ∨ overlay_type = "video" then
            osJoin cfg.assets_dir content
          else content)
          position_x position_y start_time end_time font_size font_color
          language with
      | .error e => (errDict (strExc e), db)
      | .ok (false, db2) => (errDict "overlay failed", db2)
      | .ok (true, db2) =>
        match get_latest_processed_for_video db2 video.id with
        | none => (errDict "NoneType object has no attribute id", db2)
        | some p => (⟨"completed", none, some p.id⟩, db2)

/-- Helper: the newest processed row for a video is found first. -/
theorem get_latest_cons (pv : ProcessedVideo) (db : List ProcessedVideo)
    (vid : String) (h : pv.original_video_id = vid) :
    get_latest_processed_for_video (pv :: db) vid = some pv := by
  simp [get_latest_processed_for_video, List.filter_cons, h]

/-- Helper: a successful overlay commits exactly one new row, owned by the
source video. -/
theorem overlay_and_record_ok_true (fs : FS) (child : ChildResult)
    (new_id : String) (db db2 : List ProcessedVideo) (video : Video)
    (output_path overlay_type content : String) (px py : Int) (st : ℚ)
    (et : Option ℚ) (fsz : Option Int) (fc lang : String)
    (h : overlay_and_record fs child new_id db video output_path overlay_type
      content px py st et fsz fc lang = .ok (true, db2)) :
    ∃ pv, db2 = pv :: db ∧ pv.original_video_id = video.id ∧
      pv.file_path = output_path := by
  unfold overlay_and_record at h
  split at h
  · exact absurd h (by simp)
  · simp at h
  · simp only [Except.ok.injEq, Prod.mk.injEq, true_and] at h
    exact ⟨_, h.symm, rfl, rfl⟩

/-- Helper: the full claimed outcome shape for the trim task. -/
theorem trim_task_outcome (videos : List Video) (fs : FS)
    (child : ChildResult) (iso new_id : String) (db : List ProcessedVideo)
    (video_id : String) (st et : ℚ) :
    ((trim_video_task videos fs child iso new_id db video_id st et).1.status
        = "error" ∧
      (trim_video_task videos fs child iso new_id db video_id st et).1.error.isSome
        = true ∧
      (trim_video_task videos fs child iso new_id db video_id st
        et).1.processed_video_id = none) ∨
    ((trim_video_task videos fs child iso new_id db video_id st et).1.status
        = "completed" ∧
      ∃ pv, (trim_video_task videos fs child iso new_id db video_id st et).2
          = pv :: db ∧
        (trim_video_task videos fs child iso new_id db video_id st
          et).1.processed_video_id = some pv.id) := by
  unfold trim_video_task
  split
  · exact Or.inl ⟨rfl, rfl, rfl⟩
  · split
    · exact Or.inl ⟨rfl, rfl, rfl⟩
    · exact Or.inl ⟨rfl, rfl, rfl⟩
    · exact Or.inr ⟨rfl, _, rfl, rfl⟩

/-- Helper: the full claimed outcome shape for the overlay task. -/
theorem overlay_task_outcome (videos : List Video) (fs : FS)
    (child : ChildResult) (cfg : SettingsCfg) (iso new_id : String)
    (db : List ProcessedVideo) (video_id overlay_type content : String)
    (px py : Int) (st : ℚ) (et : Option ℚ) (fsz : Option Int)
    (fc lang : String) :
    ((overlay_video_task videos fs child cfg iso new_id db video_id
        overlay_type content px py st et fsz fc lang).1.status = "error" ∧
      (overlay_video_task videos fs child cfg iso new_id db video_id
        overlay_type content px py st et fsz fc lang).1.error.isSome = true ∧
      (overlay_video_task videos fs child cfg iso new_id db video_id
        overlay_type content px py st et fsz fc
        lang).1.processed_video_id = none) ∨
    ((overlay_video_task videos fs child cfg iso new_id db video_id
        overlay_type content px py st et fsz fc lang).1.status = "completed" ∧
      ∃ pv, (overlay_video_task videos fs child cfg iso new_id db video_id
          overlay_type content px py st et fsz fc lang).2 = pv :: db ∧
        (overlay_video_task videos fs child cfg iso new_id db video_id
          overlay_type content px py st et fsz fc
          lang).1.processed_video_id = some pv.id) := by
  unfold overlay_video_task
  split
  · exact Or.inl ⟨rfl, rfl, rfl⟩
  · split
    · exact Or.inl ⟨rfl, rfl, rfl⟩
    · split
      · exact Or.inl ⟨rfl, rfl, rfl⟩
      · exact Or.inl ⟨rfl, rfl, rfl⟩
      · rename_i video hlookup hasset hrec db2 hok
        obtain ⟨pv, hdb, hown, _⟩ := overlay_and_record_ok_true _ _ _ _ _ _ _
          _ _ _ _ _ _ _ _ _ hok
        have hlatest : get_latest_processed_for_video db2 video.id = some pv := by
          rw [hdb]; exact get_latest_cons pv db video.id hown
        split
        · rename_i hnone
          rw [hlatest] at hnone
          exact absurd hnone (by simp)
        · rename_i p hp
          rw [hlatest] at hp
          have hppv : pv = p := by simpa using hp
          exact Or.inr ⟨rfl, pv, hdb, by rw [hppv]⟩

/-- C5: each asynchronous task returns a structured outcome and never lets
an exception cross the task boundary (the embedded task functions are total,
mirroring the `try/except Exception` around each body): every outcome is
either `{status: "error", error: <message>}` or `{status: "completed",
processed_video_id: <id>}`, where in the completed case the id is that of
the one row the task just committed on top of the store. -/
theorem C5_tasks_return_structured_outcomes :
    (∀ (videos : List Video) (fs : FS) (child : ChildResult)
        (iso new_id : String) (db : List ProcessedVideo) (video_id : String)
        (st et : ℚ),
      ((trim_video_task videos fs child iso new_id db video_id st et).1.status
          = "error" ∧
        (trim_video_task videos fs child iso new_id db video_id st
          et).1.error.isSome = true ∧
        (trim_video_task videos fs child iso new_id db video_id st
          et).1.processed_video_id = none) ∨
      ((trim_video_task videos fs child iso new_id db video_id st et).1.status
          = "completed" ∧
        ∃ pv, (trim_video_task videos fs child iso new_id db video_id st
            et).2 = pv :: db ∧
          (trim_video_task videos fs child iso new_id db video_id st
            et).1.processed_video_id = some pv.id)) ∧
    (∀ (videos : List Video) (fs : FS) (child : ChildResult)
        (cfg : SettingsCfg) (iso new_id : String) (db : List ProcessedVideo)
        (video_id overlay_type content : String) (px py : Int) (st : ℚ)
        (et : Option ℚ) (fsz : Option Int) (fc lang : String),
      ((overlay_video_task videos fs child cfg iso new_id db video_id
          overlay_type content px py st et fsz fc lang).1.status = "error" ∧
        (overlay_video_task videos fs child cfg iso new_id db video_id
          overlay_type content px py st et fsz fc lang).1.error.isSome
          = true ∧
        (overlay_video_task videos fs child cfg iso new_id db video_id
          overlay_type content px py st et fsz fc
          lang).1.processed_video_id = none) ∨
      ((overlay_video_task videos fs child cfg iso new_id db video_id
          overlay_type content px py st et fsz fc lang).1.status
          = "completed" ∧
        ∃ pv, (overlay_video_task videos fs child cfg iso new_id db video_id
            overlay_type content px py st et fsz fc lang).2 = pv :: db ∧
          (overlay_video_task videos fs child cfg iso new_id db video_id
            overlay_type content px py st et fsz fc
            lang).1.processed_video_id = some pv.id)) :=
  ⟨fun videos fs child iso new_id db video_id st et =>
    trim_task_outcome videos fs child iso new_id db video_id st et,
  fun videos fs child cfg iso new_id db video_id overlay_type content px py
      st et fsz fc lang =>
    overlay_task_outcome videos fs child cfg iso new_id db video_id
      overlay_type content px py st et fsz fc lang⟩

/-! ## Output-path formation (C9) -/

/-- Output path formed by the synchronous trim endpoint
(`src/app/api/endpoints/processing.py`, lines 38-40). -/
def endpoint_trim_output_path (cfg : SettingsCfg) (iso : String)
    (video : Video) : String :=
  osJoin cfg.processed_dir (iso ++ "_trimmed_" ++ basename video.filename)

/-- Output path formed by the synchronous overlay endpoint
(`processing.py`, lines 67-69). -/
def endpoint_overlay_output_path (cfg : SettingsCfg) (iso : String)
    (video : Video) : String :=
  osJoin cfg.processed_dir (iso ++ "_overlay_" ++ basename video.filename)

/-- Output path formed by the synchronous watermark endpoint
(`processing.py`, lines 105-107). -/
def endpoint_watermark_output_path (cfg : SettingsCfg) (iso : String)
    (video : Video) : String :=
  osJoin cfg.processed_dir (iso ++ "_watermarked_" ++ basename video.filename)

/-- Output path formed by the synchronous quality endpoint
(`processing.py`, lines 141-143). -/
def endpoint_quality_output_path (cfg : SettingsCfg) (iso quality : String)
    (video : Video) : String :=
  osJoin cfg.processed_dir (iso ++ "_" ++ quality ++ "_" ++ basename video.filename)

/-- A configuration whose processed directory is not the default. -/
def cfgCustom : SettingsCfg := ⟨"uploads", "custom", "assets"⟩

/-- Filesystem for the task scenario: the source file and the task's
computed output path both exist. -/
def fsTask : FS := fun p =>
  if p = "processed/TS_trimmed_a.mp4" then some 10
  else if p = "in.mp4" then some 100 else none

/-- C9 counterexample: the asynchronous trim task completes and commits a
row whose stored output path is under the literal directory `"processed"`
(`src/app/tasks/video.py`, line 21), which is not the configured processed
directory when that setting is `"custom"` — so not every operation writes
its output under the configured processed directory. -/
theorem C9_counterexample :
    (trim_video_task [vidA] fsTask childOK "TS" "p1" [] "v1" 0 5).1.status
        = "completed" ∧
      ((trim_video_task [vidA] fsTask childOK "TS" "p1" [] "v1" 0 5).2.map
        ProcessedVideo.file_path) = ["processed/TS_trimmed_a.mp4"] ∧
      "processed/TS_trimmed_a.mp4" ≠
        osJoin cfgCustom.processed_dir "TS_trimmed_a.mp4" := by
  refine ⟨rfl, rfl, by decide⟩

/-- C9 (amended): the four synchronous endpoints form their output paths by
joining the configured processed directory with the generated timestamped
filename, but the asynchronous tasks join the literal directory name
`"processed"` with the filename — which coincides with the configured
directory only when the setting has its default value. -/
theorem C9_output_path_formation :
    (∀ (cfg : SettingsCfg) (iso : String) (video : Video),
      endpoint_trim_output_path cfg iso video =
        osJoin cfg.processed_dir (iso ++ "_trimmed_" ++ basename video.filename) ∧
      endpoint_overlay_output_path cfg iso video =
        osJoin cfg.processed_dir (iso ++ "_overlay_" ++ basename video.filename) ∧
      endpoint_watermark_output_path cfg iso video =
        osJoin cfg.processed_dir
          (iso ++ "_watermarked_" ++ basename video.filename) ∧
      ∀ quality, endpoint_quality_output_path cfg iso quality video =
        osJoin cfg.processed_dir
          (iso ++ "_" ++ quality ++ "_" ++ basename video.filename)) ∧
    (∀ (videos : List Video) (fs : FS) (child : ChildResult)
        (iso new_id : String) (db : List ProcessedVideo) (video_id : String)
        (st et : ℚ) (video : Video),
      get_video_by_id videos video_id = some video →
      (trim_video_task videos fs child iso new_id db video_id st et).1.status
          = "completed" →
      ∃ pv, (trim_video_task videos fs child iso new_id db video_id st et).2
          = pv :: db ∧
        pv.file_path =
          osJoin "processed" (iso ++ "_trimmed_" ++ basename video.filename)) ∧
    (∀ (videos : List Video) (fs : FS) (child : ChildResult)
        (cfg : SettingsCfg) (iso new_id : String) (db : List ProcessedVideo)
        (video_id overlay_type content : String) (px py : Int) (st : ℚ)
        (et : Option ℚ) (fsz : Option Int) (fc lang : String) (video : Video),
      get_video_by_id videos video_id = some video →
      (overlay_video_task videos fs child cfg iso new_id db video_id
        overlay_type content px py st et fsz fc lang).1.status = "completed" →
      ∃ pv, (overlay_video_task videos fs child cfg iso new_id db video_id
          overlay_type content px py st et fsz fc lang).2 = pv :: db ∧
        pv.file_path =
          osJoin "processed" (iso ++ "_overlay_" ++ basename video.filename)) := by
  refine ⟨?_, ?_, ?_⟩
  · intro cfg iso video
    exact ⟨rfl, rfl, rfl, fun quality => rfl⟩
  · intro videos fs child iso new_id db video_id st et video h1 h2
    unfold trim_video_task at h2 ⊢
    simp only [h1] at h2 ⊢
    split at h2
    · simp [errDict] at h2
    · simp [errDict] at h2
    · exact ⟨_, rfl, rfl⟩
  · intro videos fs child cfg iso new_id db video_id overlay_type content px
      py st et fsz fc lang video h1 h2
    unfold overlay_video_task at h2 ⊢
    simp only [h1] at h2 ⊢
    split at h2
    · simp [errDict] at h2
    · rename_i hcond
      rw [if_neg hcond]
      split at h2
      · simp [errDict] at h2
      · simp [errDict] at h2
      · rename_i db2 hok
        obtain ⟨pv, hdb, hown, hpath⟩ := overlay_and_record_ok_true _ _ _ _ _
          _ _ _ _ _ _ _ _ _ _ _ hok
        have hlatest : get_latest_processed_for_video db2 video.id = some pv := by
          rw [hdb]; exact get_latest_cons pv db video.id hown
        simp only [hlatest]
        exact ⟨pv, hdb, hpath⟩

/-- Witness for C9 (amended): in the concrete task scenario the committed
row's stored path is the literal-processed join. -/
theorem C9_output_path_formation_witness :
    ∃ pv, (trim_video_task [vidA] fsTask childOK "TS" "p1" [] "v1" 0 5).2
        = pv :: [] ∧
      pv.file_path =
        osJoin "processed" ("TS" ++ "_trimmed_" ++ basename vidA.filename) :=
  C9_output_path_formation.2.1 [vidA] fsTask childOK "TS" "p1" [] "v1" 0 5
    vidA rfl rfl

end VideoProc
